import Mathlib

/-!
Shallow embedding of the news-app source (src/app.js).

The file defines two implementations of the same widget; the namespaced
one (http / httpCall / render / preloader) is the authoritative version,
and every definition below is translated from it.

DOM state is modelled explicitly:
* the content region (newsContent) is its innerHTML string, together
  with a counter of DOM mutations performed on it;
* the loading indicator is the number of .progress elements in the body
  (showPreloader inserts one, removePreloader removes one if present);
* the submit control is its disabled flag;
* M.toast calls, console.log calls and xhr.send calls are event logs.

Asynchrony is collapsed: a transport call takes the simulated network
outcome as a parameter and runs the registered callback to completion.
-/

structure Article where
  urlToImage : Option String
  title : String
  url : String
  description : String
deriving DecidableEq

structure Response where
  articles : List Article
deriving DecidableEq

structure AppState where
  content : String
  contentMutations : Nat
  preloaders : Nat
  searchButtonDisabled : Bool
  toasts : List String
  consoleLog : List String
  requests : List String
deriving DecidableEq

/-- JavaScript `a || b` on an optional string: `undefined`, `null` and
the empty string are falsy and select the right operand. -/
def jsOrStr (v : Option String) (d : String) : String :=
  match v with
  | none => d
  | some t => if t == "" then d else t

/-- Markup inserted by `preloader.showPreloader` at the start of the body:
`<div class=\x27progress\x27><div class=\x27indeterminate\x27></div></div>`.
In the state model an insertion bumps the `preloaders` counter. -/
def preloaderHtml : String :=
  "<div class=\x27progress\x27><div class=\x27indeterminate\x27></div></div>"

/-- `preloader.showPreloader`: disable the search button, insert the
preloader markup at the start of the body. -/
def preloader.showPreloader (s : AppState) : AppState :=
  { s with searchButtonDisabled := true, preloaders := s.preloaders + 1 }

/-- `preloader.removePreloader`: enable the search button; if a
`.progress` element is present, remove it. -/
def preloader.removePreloader (s : AppState) : AppState :=
  if s.preloaders != 0 then
    { s with searchButtonDisabled := false, preloaders := s.preloaders - 1 }
  else
    { s with searchButtonDisabled := false }

def render.dummyImageUrl : String := "https://via.placeholder.com/450x337"

/-- Literal chunk of the card template before the image src. -/
def render.tplA : String := "<div class=\"col s12 m6\">\n                  <div class=\"card\">\n                    <div class=\"card-image\">\n                      <img src=\""

/-- Literal chunk between the image src and the title. -/
def render.tplB : String := "\">\n                    </div>\n                    <div class=\"card-content\">\n                    <span class=\"card-title\">"

/-- Literal chunk between the title and the description. -/
def render.tplC : String := "</span>\n                      <p>"

/-- Literal chunk between the description and the link href. -/
def render.tplD : String := "</p>\n                    </div>\n                    <div class=\"card-action\">\n                      <a href=\""

/-- Literal chunk after the link href. -/
def render.tplE : String := "\">This is a link</a>\n                    </div>\n                  </div>\n                </div>"

/-- The card markup shared verbatim by `render.template` and
`render.anotherTemplate` (their template literals are byte-identical
apart from the row markers): the template literal is the concatenation
of its literal chunks and the interpolated expressions. -/
def render.cardBody (a : Article) : String :=
  render.tplA ++ jsOrStr a.urlToImage render.dummyImageUrl ++ render.tplB ++ a.title ++ render.tplC ++ a.description ++ render.tplD ++ a.url ++ render.tplE

/-- `render.template`: plain per-article card; `index` and `length` are
accepted but unused in the source. -/
def render.template (a : Article) (index length : Nat) : String :=
  render.cardBody a

def render.rowOpen : String := "<div class=\"row\">"

def render.rowClose : String := "</div>"

/-- `render.anotherTemplate`: row-wrapping variant.  The JS guards are
`!(index % 2)` for the row-open marker and
`index % 2 || +index === +length - 1` for the row-close marker. -/
def render.anotherTemplate (a : Article) (index length : Nat) : String :=
  (if index % 2 == 0 then render.rowOpen else "") ++ render.cardBody a ++ (if (index % 2 != 0) || ((index : Int) == (length : Int) - 1) then render.rowClose else "")

/-- `render.clearContent`: `newsContent.innerHTML = ""`. -/
def render.clearContent (s : AppState) : AppState :=
  { s with content := "", contentMutations := s.contentMutations + 1 }

/-- `render.renderContent`: accumulate one template fragment per article
(via `arr.map` used as a loop with `fragment += el`), insert the
accumulated fragment `afterbegin` in one mutation, then remove the
preloader. -/
def render.renderContent (arr : List Article) (s : AppState) : AppState :=
  let fragment := arr.enum.foldl (fun acc p => acc ++ render.template p.2 p.1 arr.length) ""
  let s1 := { s with content := fragment ++ s.content, contentMutations := s.contentMutations + 1 }
  preloader.removePreloader s1

def httpCall.apiKey : String := ""

def httpCall.apiUrl : String := "https://news-api-v2.herokuapp.com"

/-- `httpCall.httpCallback`: the shared response handler. -/
def httpCall.httpCallback (err : Option String) (res : Response) (s : AppState) : AppState :=
  match err with
  | some e =>
    let s1 := preloader.removePreloader s
    let s2 := { s1 with searchButtonDisabled := false }
    { s2 with toasts := s2.toasts ++ [e] }
  | none =>
    if res.articles.length == 0 then
      let s1 := preloader.removePreloader s
      let s2 := { s1 with searchButtonDisabled := false }
      { s2 with toasts := s2.toasts ++ ["No news :("] }
    else
      let s1 := if s.content != "" then render.clearContent s else s
      render.renderContent res.articles s1

/-- Outcome of the simulated network exchange for one xhr. -/
inductive NetOutcome where
  | loaded (status : Nat) (body : String)
  | netError
deriving DecidableEq

/-- The error string built by the load listener for a non-2xx status. -/
def errorMessage (status : Nat) : String :=
  "Error. Status code " ++ toString status

/-- Stand-in for the raw xhr object the load listener passes as the
second callback argument on the error branch; the shared handler
returns before ever reading it. -/
def xhrPlaceholder : Response :=
  { articles := [] }

/-- `http().get(url, cb)`: send the request; on load, if
`Math.floor(status / 100) !== 2` deliver the error string (with the raw
xhr), otherwise parse the body and deliver the parsed value; on a
network error only `console.log("error")` runs and `cb` is never
invoked.  `parse` stands for `JSON.parse` composed with reading the
articles field, an external builtin. -/
def http.get (url : String) (parse : String → Response) (outcome : NetOutcome)
    (cb : Option String → Response → AppState → AppState) (s : AppState) : AppState :=
  let s1 := { s with requests := s.requests ++ [url] }
  match outcome with
  | NetOutcome.loaded status body =>
    if status / 100 != 2 then cb (some (errorMessage status)) xhrPlaceholder s1
    else cb none (parse body) s1
  | NetOutcome.netError => { s1 with consoleLog := s1.consoleLog ++ ["error"] }

/-- URL built by `httpCall.getTopHeadlines` by string templating. -/
def httpCall.topHeadlinesUrl (country category : String) : String :=
  httpCall.apiUrl ++ "/top-headlines?country=" ++ country ++ "&category=" ++ category ++ "&apiKey=" ++ httpCall.apiKey

/-- URL built by `httpCall.getEverything` by string templating. -/
def httpCall.everythingUrl (query : String) : String :=
  httpCall.apiUrl ++ "/everything?q=" ++ query ++ "&apiKey=" ++ httpCall.apiKey

/-- `httpCall.getTopHeadlines`: show the preloader, then issue the GET
with the templated URL, routing the result to the shared handler. -/
def httpCall.getTopHeadlines (country category : String) (parse : String → Response)
    (outcome : NetOutcome) (s : AppState) : AppState :=
  http.get (httpCall.topHeadlinesUrl country category) parse outcome httpCall.httpCallback (preloader.showPreloader s)

/-- `httpCall.getTopHeadlines()` with no arguments: the JS default
parameters `country = "ru"`, `category = "technology"` apply. -/
def httpCall.getTopHeadlinesDefault (parse : String → Response)
    (outcome : NetOutcome) (s : AppState) : AppState :=
  httpCall.getTopHeadlines "ru" "technology" parse outcome s

/-- `httpCall.getEverything`: show the preloader, then issue the GET
with the templated URL, routing the result to the shared handler. -/
def httpCall.getEverything (query : String) (parse : String → Response)
    (outcome : NetOutcome) (s : AppState) : AppState :=
  http.get (httpCall.everythingUrl query) parse outcome httpCall.httpCallback (preloader.showPreloader s)

/-! Sample inputs used by witness theorems. -/

def sampleArticle : Article :=
  { urlToImage := none, title := "t", url := "u", description := "d" }

def sampleState : AppState :=
  { content := "", contentMutations := 0, preloaders := 1,
    searchButtonDisabled := true, toasts := [], consoleLog := [], requests := [] }

def sampleFilledState : AppState :=
  { content := "x", contentMutations := 3, preloaders := 1,
    searchButtonDisabled := true, toasts := ["old"], consoleLog := [], requests := [] }

/-! Helper lemmas. -/

theorem removePreloader_content (s : AppState) :
    (preloader.removePreloader s).content = s.content := by
  unfold preloader.removePreloader
  split <;> rfl

theorem removePreloader_contentMutations (s : AppState) :
    (preloader.removePreloader s).contentMutations = s.contentMutations := by
  unfold preloader.removePreloader
  split <;> rfl

theorem removePreloader_button (s : AppState) :
    (preloader.removePreloader s).searchButtonDisabled = false := by
  unfold preloader.removePreloader
  split <;> rfl

theorem removePreloader_preloaders (s : AppState) :
    (preloader.removePreloader s).preloaders = s.preloaders - 1 := by
  unfold preloader.removePreloader
  split
  · rfl
  · rename_i h
    simp only [bne_iff_ne, ne_eq, Decidable.not_not] at h
    simp [h]

theorem removePreloader_toasts (s : AppState) :
    (preloader.removePreloader s).toasts = s.toasts := by
  unfold preloader.removePreloader
  split <;> rfl

theorem string_foldl_append (l : List String) (init : String) :
    l.foldl (fun acc x => acc ++ x) init = init ++ String.join l := by
  induction l generalizing init with
  | nil => simp [String.join]
  | cons x xs ih =>
    have hj : String.join (x :: xs) = x ++ String.join xs := by
      show List.foldl (fun r s => r ++ s) "" (x :: xs) = _
      rw [List.foldl_cons, String.empty_append, ih x]
    rw [List.foldl_cons, ih (init ++ x), hj, String.append_assoc]

theorem fragment_eq_join (arr : List Article) :
    arr.enum.foldl (fun acc p => acc ++ render.template p.2 p.1 arr.length) ""
      = String.join (arr.enum.map (fun p => render.template p.2 p.1 arr.length)) := by
  have h := List.foldl_map (fun p : Nat × Article => render.template p.2 p.1 arr.length)
    (fun acc x => acc ++ x) arr.enum ""
  rw [← h, string_foldl_append, String.empty_append]

/-- C8: on a transport-level (network) failure, http get only logs
"error" and issues the request; the callback is never invoked (the
result is the same for every callback), so no branch of the response
handler runs and the rest of the state is untouched. -/
theorem http_get_network_failure (url : String) (parse : String → Response)
    (cb cb2 : Option String → Response → AppState → AppState) (s : AppState) :
    http.get url parse NetOutcome.netError cb s
        = { s with requests := s.requests ++ [url], consoleLog := s.consoleLog ++ ["error"] }
  ∧ http.get url parse NetOutcome.netError cb s = http.get url parse NetOutcome.netError cb2 s := by
  exact ⟨rfl, rfl⟩

/-- C9: clearContent followed by renderContent on the empty array leaves
the content region empty; rendering zero items concatenates zero
fragments and the insertion is a no-op on any content. -/
theorem clear_then_render_empty (s t : AppState) :
    (render.renderContent [] (render.clearContent s)).content = ""
  ∧ (render.renderContent [] t).content = t.content := by
  constructor
  · simp [render.renderContent, render.clearContent, removePreloader_content]
  · simp [render.renderContent, removePreloader_content]

/-- C2: the load listener delivers the JSON-parsed body with no error
exactly when the status code is in the 200 to 299 range, and otherwise
delivers an error string that carries the numeric status code. -/
theorem http_get_status_routing (url : String) (parse : String → Response)
    (status : Nat) (body : String)
    (cb : Option String → Response → AppState → AppState) (s : AppState) :
    http.get url parse (NetOutcome.loaded status body) cb s
        = (if 200 ≤ status ∧ status ≤ 299 then
            cb none (parse body) { s with requests := s.requests ++ [url] }
          else
            cb (some (errorMessage status)) xhrPlaceholder { s with requests := s.requests ++ [url] })
  ∧ (∃ p q, errorMessage status = p ++ toString status ++ q) := by
  constructor
  · show (if (status / 100 != 2) = true then _ else _) = _
    by_cases h : 200 ≤ status ∧ status ≤ 299
    · have h2 : status / 100 = 2 := by omega
      simp [h, h2]
    · have h2 : status / 100 ≠ 2 := by omega
      simp [h, h2]
  · exact ⟨"Error. Status code ", "", by rw [String.append_empty]; rfl⟩

/-- C7: getTopHeadlines builds exactly
base/top-headlines?country=c&category=cat&apiKey=k by string templating
(with the defaults country = "ru", category = "technology" when called
with no arguments), sets the UI to the loading state, and invokes the
transport on that URL with the shared response handler; getEverything
likewise builds base/everything?q=q&apiKey=k. -/
theorem endpoints_and_routing (country category query : String)
    (parse : String → Response) (outcome : NetOutcome) (s : AppState) :
    httpCall.topHeadlinesUrl country category
        = "https://news-api-v2.herokuapp.com/top-headlines?country=" ++ country ++ "&category=" ++ category ++ "&apiKey="
  ∧ httpCall.getTopHeadlinesDefault parse outcome s
        = httpCall.getTopHeadlines "ru" "technology" parse outcome s
  ∧ httpCall.topHeadlinesUrl "ru" "technology"
        = "https://news-api-v2.herokuapp.com/top-headlines?country=ru&category=technology&apiKey="
  ∧ httpCall.everythingUrl query
        = "https://news-api-v2.herokuapp.com/everything?q=" ++ query ++ "&apiKey="
  ∧ httpCall.getTopHeadlines country category parse outcome s
        = http.get (httpCall.topHeadlinesUrl country category) parse outcome
            httpCall.httpCallback (preloader.showPreloader s)
  ∧ httpCall.getEverything query parse outcome s
        = http.get (httpCall.everythingUrl query) parse outcome
            httpCall.httpCallback (preloader.showPreloader s)
  ∧ (preloader.showPreloader s).preloaders = s.preloaders + 1
  ∧ (preloader.showPreloader s).searchButtonDisabled = true := by
  refine ⟨?_, rfl, ?_, ?_, rfl, rfl, rfl, rfl⟩
  · show ((((("https://news-api-v2.herokuapp.com" ++ "/top-headlines?country=") ++ country) ++ "&category=") ++ category) ++ "&apiKey=") ++ "" = _
    rw [String.append_empty]
    rfl
  · rfl
  · show ((("https://news-api-v2.herokuapp.com" ++ "/everything?q=") ++ query) ++ "&apiKey=") ++ "" = _
    rw [String.append_empty]
    rfl

/-- C6: an article whose urlToImage is absent or empty renders the
placeholder image URL in the src position of its card, and the
placeholder URL is not the empty reference. -/
theorem template_placeholder_image (a : Article) (i n : Nat)
    (h : a.urlToImage = none ∨ a.urlToImage = some "") :
    render.template a i n
        = render.tplA ++ render.dummyImageUrl ++ render.tplB ++ a.title ++ render.tplC ++ a.description ++ render.tplD ++ a.url ++ render.tplE
  ∧ render.dummyImageUrl ≠ "" := by
  constructor
  · cases h with
    | inl h0 => simp [render.template, render.cardBody, jsOrStr, h0]
    | inr h0 => simp [render.template, render.cardBody, jsOrStr, h0]
  · decide

theorem template_placeholder_image_witness :
    (sampleArticle.urlToImage = none ∨ sampleArticle.urlToImage = some "")
  ∧ (render.template sampleArticle 0 1
        = render.tplA ++ render.dummyImageUrl ++ render.tplB ++ sampleArticle.title ++ render.tplC ++ sampleArticle.description ++ render.tplD ++ sampleArticle.url ++ render.tplE
      ∧ render.dummyImageUrl ≠ "") :=
  ⟨Or.inl rfl, template_placeholder_image sampleArticle 0 1 (Or.inl rfl)⟩

/-- C1: for every article array of length at least one, renderContent
produces exactly one fragment per article via the template function,
concatenates them in input order, inserts the concatenation at the
start of the content region in one single DOM mutation, and the loading
indicator is absent afterward (under the spec invariant that at most
one indicator exists beforehand). -/
theorem renderContent_spec (arr : List Article) (s : AppState)
    (h1 : 1 ≤ arr.length) (hp : s.preloaders ≤ 1) :
    (render.renderContent arr s).content
        = String.join (arr.enum.map (fun p => render.template p.2 p.1 arr.length)) ++ s.content
  ∧ (arr.enum.map (fun p => render.template p.2 p.1 arr.length)).length = arr.length
  ∧ (render.renderContent arr s).contentMutations = s.contentMutations + 1
  ∧ (render.renderContent arr s).preloaders = 0
  ∧ (render.renderContent arr s).searchButtonDisabled = false := by
  refine ⟨?_, by simp, ?_, ?_, ?_⟩
  · show (preloader.removePreloader _).content = _
    rw [removePreloader_content, fragment_eq_join]
  · show (preloader.removePreloader _).contentMutations = _
    rw [removePreloader_contentMutations]
  · show (preloader.removePreloader _).preloaders = _
    rw [removePreloader_preloaders]
    show s.preloaders - 1 = 0
    omega
  · show (preloader.removePreloader _).searchButtonDisabled = _
    rw [removePreloader_button]

theorem renderContent_spec_witness :
    (1 ≤ ([sampleArticle] : List Article).length ∧ sampleState.preloaders ≤ 1)
  ∧ (render.renderContent [sampleArticle] sampleState).contentMutations = sampleState.contentMutations + 1
  ∧ (render.renderContent [sampleArticle] sampleState).preloaders = 0
  ∧ (render.renderContent [sampleArticle] sampleState).searchButtonDisabled = false :=
  ⟨⟨by decide, by decide⟩,
    (renderContent_spec [sampleArticle] sampleState (by decide) (by decide)).2.2.1,
    (renderContent_spec [sampleArticle] sampleState (by decide) (by decide)).2.2.2.1,
    (renderContent_spec [sampleArticle] sampleState (by decide) (by decide)).2.2.2.2⟩

theorem renderContent_button (arr : List Article) (s : AppState) :
    (render.renderContent arr s).searchButtonDisabled = false := by
  show (preloader.removePreloader _).searchButtonDisabled = false
  rw [removePreloader_button]

theorem renderContent_preloaders (arr : List Article) (s : AppState) :
    (render.renderContent arr s).preloaders = s.preloaders - 1 := by
  show (preloader.removePreloader _).preloaders = _
  rw [removePreloader_preloaders]

/-- C3: the shared response handler, invoked with a present error,
removes the loading indicator, leaves the submit control enabled,
shows one transient notification whose text is the error (which, for
the transport error of status code c, contains the numeric code), and
stops without mutating the content region. -/
theorem httpCallback_error_path (s : AppState) (c : Nat) (e : String) (res : Response)
    (he : e = errorMessage c) (hp : s.preloaders ≤ 1) :
    (httpCall.httpCallback (some e) res s).preloaders = 0
  ∧ (httpCall.httpCallback (some e) res s).searchButtonDisabled = false
  ∧ (httpCall.httpCallback (some e) res s).toasts = s.toasts ++ [e]
  ∧ (∃ p q, e = p ++ toString c ++ q)
  ∧ (httpCall.httpCallback (some e) res s).content = s.content
  ∧ (httpCall.httpCallback (some e) res s).contentMutations = s.contentMutations := by
  refine ⟨?_, rfl, ?_, ?_, ?_, ?_⟩
  · show (preloader.removePreloader s).preloaders = 0
    rw [removePreloader_preloaders]
    omega
  · show (preloader.removePreloader s).toasts ++ [e] = s.toasts ++ [e]
    rw [removePreloader_toasts]
  · exact ⟨"Error. Status code ", "", by rw [String.append_empty, he]; rfl⟩
  · show (preloader.removePreloader s).content = s.content
    rw [removePreloader_content]
  · show (preloader.removePreloader s).contentMutations = s.contentMutations
    rw [removePreloader_contentMutations]

theorem httpCallback_error_path_witness :
    (errorMessage 404 = errorMessage 404 ∧ sampleFilledState.preloaders ≤ 1)
  ∧ ((httpCall.httpCallback (some (errorMessage 404)) xhrPlaceholder sampleFilledState).preloaders = 0
      ∧ (httpCall.httpCallback (some (errorMessage 404)) xhrPlaceholder sampleFilledState).searchButtonDisabled = false
      ∧ (httpCall.httpCallback (some (errorMessage 404)) xhrPlaceholder sampleFilledState).toasts = sampleFilledState.toasts ++ [errorMessage 404]
      ∧ (∃ p q, errorMessage 404 = p ++ toString 404 ++ q)
      ∧ (httpCall.httpCallback (some (errorMessage 404)) xhrPlaceholder sampleFilledState).content = sampleFilledState.content
      ∧ (httpCall.httpCallback (some (errorMessage 404)) xhrPlaceholder sampleFilledState).contentMutations = sampleFilledState.contentMutations) :=
  ⟨⟨rfl, by decide⟩,
    httpCallback_error_path sampleFilledState 404 (errorMessage 404) xhrPlaceholder rfl (by decide)⟩

/-- C4: on a response whose articles sequence is empty, the shared
response handler removes the loading indicator, leaves the submit
control enabled, shows the fixed "No news :(" notification, and does
not mutate the content region. -/
theorem httpCallback_empty_articles (s : AppState) (res : Response)
    (ha : res.articles = []) (hp : s.preloaders ≤ 1) :
    (httpCall.httpCallback none res s).preloaders = 0
  ∧ (httpCall.httpCallback none res s).searchButtonDisabled = false
  ∧ (httpCall.httpCallback none res s).toasts = s.toasts ++ ["No news :("]
  ∧ (httpCall.httpCallback none res s).content = s.content
  ∧ (httpCall.httpCallback none res s).contentMutations = s.contentMutations := by
  obtain ⟨arts⟩ := res
  simp only at ha
  subst ha
  refine ⟨?_, rfl, ?_, ?_, ?_⟩
  · show (preloader.removePreloader s).preloaders = 0
    rw [removePreloader_preloaders]
    omega
  · show (preloader.removePreloader s).toasts ++ ["No news :("] = s.toasts ++ ["No news :("]
    rw [removePreloader_toasts]
  · show (preloader.removePreloader s).content = s.content
    rw [removePreloader_content]
  · show (preloader.removePreloader s).contentMutations = s.contentMutations
    rw [removePreloader_contentMutations]

theorem httpCallback_empty_articles_witness :
    (xhrPlaceholder.articles = [] ∧ sampleFilledState.preloaders ≤ 1)
  ∧ ((httpCall.httpCallback none xhrPlaceholder sampleFilledState).preloaders = 0
      ∧ (httpCall.httpCallback none xhrPlaceholder sampleFilledState).searchButtonDisabled = false
      ∧ (httpCall.httpCallback none xhrPlaceholder sampleFilledState).toasts = sampleFilledState.toasts ++ ["No news :("]
      ∧ (httpCall.httpCallback none xhrPlaceholder sampleFilledState).content = sampleFilledState.content
      ∧ (httpCall.httpCallback none xhrPlaceholder sampleFilledState).contentMutations = sampleFilledState.contentMutations) :=
  ⟨⟨rfl, by decide⟩,
    httpCallback_empty_articles sampleFilledState xhrPlaceholder rfl (by decide)⟩

/-- C10: every terminating path of the shared response handler - error,
empty articles, and non-empty articles (where renderContent ends by
removing the preloader) - ends with the submit button enabled and no
loading indicator present, given the invariant that at most one
indicator existed beforehand. -/
theorem httpCallback_terminal_state (err : Option String) (res : Response) (s : AppState)
    (hp : s.preloaders ≤ 1) :
    (httpCall.httpCallback err res s).searchButtonDisabled = false
  ∧ (httpCall.httpCallback err res s).preloaders = 0 := by
  cases err with
  | some e =>
    refine ⟨rfl, ?_⟩
    show (preloader.removePreloader s).preloaders = 0
    rw [removePreloader_preloaders]
    omega
  | none =>
    obtain ⟨arts⟩ := res
    cases arts with
    | nil =>
      refine ⟨rfl, ?_⟩
      show (preloader.removePreloader s).preloaders = 0
      rw [removePreloader_preloaders]
      omega
    | cons a rest =>
      constructor
      · show (render.renderContent (a :: rest)
            (if s.content != "" then render.clearContent s else s)).searchButtonDisabled = false
        rw [renderContent_button]
      · show (render.renderContent (a :: rest)
            (if s.content != "" then render.clearContent s else s)).preloaders = 0
        rw [renderContent_preloaders]
        split
        · show s.preloaders - 1 = 0
          omega
        · show s.preloaders - 1 = 0
          omega

theorem httpCallback_terminal_state_witness :
    sampleState.preloaders ≤ 1
  ∧ ((httpCall.httpCallback none (Response.mk [sampleArticle]) sampleState).searchButtonDisabled = false
      ∧ (httpCall.httpCallback none (Response.mk [sampleArticle]) sampleState).preloaders = 0) :=
  ⟨by decide, httpCallback_terminal_state none (Response.mk [sampleArticle]) sampleState (by decide)⟩

set_option maxRecDepth 8192 in
theorem rowOpen_not_prefix_card (a : Article) (t : String) :
    ¬ render.rowOpen.data <+: (render.cardBody a ++ t).data := by
  intro h
  rw [List.prefix_iff_eq_take] at h
  simp only [render.cardBody, String.data_append, List.append_assoc] at h
  rw [List.take_append_of_le_length (by decide)] at h
  exact absurd h (by decide)

/-- C5: the row-wrapping template variant opens a row exactly at the
even indices (the output starts with the row-open marker iff the index
is even, and the marker never arises otherwise since the card markup
cannot begin with it), and appends the row-close marker exactly at the
indices that are odd or equal to totalCount - 1, as the length
decomposition shows; for totalCount = 5 the open indices are 0, 2, 4
and the close indices are 1, 3, 4. -/
theorem anotherTemplate_row_markers (a : Article) (i n : Nat) :
    (render.rowOpen.data <+: (render.anotherTemplate a i n).data ↔ i % 2 = 0)
  ∧ (render.anotherTemplate a i n).length
      = (if i % 2 = 0 then render.rowOpen.length else 0) + (render.cardBody a).length
        + (if i % 2 = 1 ∨ (i : Int) = (n : Int) - 1 then render.rowClose.length else 0)
  ∧ (∀ j : Nat, j < 5 → (j % 2 = 0 ↔ (j = 0 ∨ j = 2 ∨ j = 4)))
  ∧ (∀ j : Nat, j < 5 → ((j % 2 = 1 ∨ (j : Int) = (5 : Int) - 1) ↔ (j = 1 ∨ j = 3 ∨ j = 4))) := by
  refine ⟨?_, ?_, ?_, ?_⟩
  · rcases Nat.mod_two_eq_zero_or_one i with hi | hi
    · apply iff_of_true ?_ hi
      simp [render.anotherTemplate, hi, List.append_assoc]
    · apply iff_of_false ?_ (by omega)
      have hg : (i % 2 == 0) = false := by simp [hi]
      simp only [render.anotherTemplate, hg, Bool.false_eq_true, if_false, String.empty_append]
      exact rowOpen_not_prefix_card a _
  · by_cases hc : (i : Int) = (n : Int) - 1
    · rcases Nat.mod_two_eq_zero_or_one i with hi | hi
      · simp [render.anotherTemplate, hi, hc, String.length_append]
      · simp [render.anotherTemplate, hi, hc, String.length_append]
    · rcases Nat.mod_two_eq_zero_or_one i with hi | hi
      · simp [render.anotherTemplate, hi, hc, String.length_append]
      · simp [render.anotherTemplate, hi, hc, String.length_append]
  · intro j hj
    omega
  · intro j hj
    omega

theorem anotherTemplate_row_markers_witness :
    ((2 : Nat) < 5)
  ∧ (render.rowOpen.data <+: (render.anotherTemplate sampleArticle 2 5).data ↔ 2 % 2 = 0)
  ∧ (((2 : Nat) % 2 = 1 ∨ ((2 : Nat) : Int) = (5 : Int) - 1) ↔ ((2 : Nat) = 1 ∨ (2 : Nat) = 3 ∨ (2 : Nat) = 4)) :=
  ⟨by decide,
    (anotherTemplate_row_markers sampleArticle 2 5).1,
    (anotherTemplate_row_markers sampleArticle 2 5).2.2.2 2 (by decide)⟩
